import Mathlib

/-!
Shallow embedding of the Market-Pulse microservice backend (src/index.js).

The backend exposes `GET /market-pulse/:ticker`: it validates the ticker,
consults an in-memory TTL cache, on a miss fetches historical prices and
news concurrently (`Promise.all`), then calls the Gemini AI for a sentiment
judgment, assembles the result, writes it to the cache and returns it.

Modelling conventions:
  - Upstream I/O is modelled by outcome parameters (an `Env` record): each
    axios call's result is an explicit value, so every code path of the
    handler is a pure function of the environment.
  - JS rejected promises / thrown errors are `Except String`, carrying the
    error message (`error.message`).
  - Instants (`Date.now()`, `new Date()`) are naturals, in milliseconds.
    `env.elapsed` is the time spent between request arrival and result
    assembly, so the instant observed during assembly is `now + elapsed`.
  - `response.data` payloads are modelled only as finely as the code
    inspects them: the historical payload is `Option (List HistPoint)`
    (`none` = data nullish or its `historical` field missing), the news
    payload distinguishes nullish (falsy), an array, and any other truthy
    JSON value, because `response.data || []` passes truthy values through
    verbatim.
  - JS `toUpperCase` is modelled ASCII-wise by `Char.toUpper`, and the
    regex test `^[A-Z0-9.-]{1,10}$` character-by-character.
-/

/-- A daily historical price point, as consumed from the FMP payload:
the code reads `date`, `close` and `volume`. Prices are modelled as
rationals (ideal decimals) rather than binary floats. -/
structure HistPoint where
  date : String
  close : Rat
  volume : Int
  deriving DecidableEq

/-- A news article as consumed from the FMP stock-news payload. -/
structure NewsItem where
  title : String
  text : String
  url : String
  deriving DecidableEq

/-- The value JSON.parse produced from the Gemini candidate text, as
consumed by the handler: the code reads `pulse`, `reason`, `confidence`
verbatim, with no vocabulary validation. -/
structure Analysis where
  pulse : String
  reason : String
  confidence : String
  deriving DecidableEq

/-- Outcome of the axios GET for historical data: either the request
threw (network error or non-2xx status), or it returned a payload.
`ok none` models `!response.data || !response.data.historical`;
`ok (some h)` models a payload with a `historical` array `h`. -/
inductive HistOutcome where
  | netErr (msg : String)
  | ok (payload : Option (List HistPoint))
  deriving DecidableEq

/-- The news payload, as far as `response.data || []` distinguishes it:
`nullish` is any falsy value, `arr` an array of items, `other` any other
truthy JSON value (e.g. an error object or a non-JSON body), which the
code passes through verbatim. -/
inductive NewsPayload where
  | nullish
  | arr (items : List NewsItem)
  | other (desc : String)
  deriving DecidableEq

/-- Outcome of the axios GET for news: threw, or returned a payload. -/
inductive NewsOutcome where
  | netErr (msg : String)
  | ok (payload : NewsPayload)
  deriving DecidableEq

/-- The value that ends up in the result's `news` field: either an array
of items or a truthy non-array payload passed through verbatim. -/
inductive NewsVal where
  | arr (items : List NewsItem)
  | other (desc : String)
  deriving DecidableEq

/-- Outcome of the axios POST to Gemini: threw, or returned a body whose
`candidates` list is modelled by the JSON.parse outcome of each
candidate's text (`none` = the text is not valid JSON, so JSON.parse
throws; `some a` = it parses to the object `a`). -/
inductive GeminiOutcome where
  | netErr (msg : String)
  | ok (candidates : List (Option Analysis))
  deriving DecidableEq

/-- `getHistoricalData` (src/index.js lines 33-46): throws without the FMP
key; rethrows axios errors; throws "No time series data found" when the
payload has no recognizable `historical` field; otherwise returns it. -/
def getHistoricalData (fmpKey : Option String) (ticker : String)
    (resp : HistOutcome) : Except String (List HistPoint) :=
  match fmpKey with
  | none => .error "FMP API key not configured."
  | some _ =>
    match resp with
    | .netErr msg => .error msg
    | .ok none => .error ("No time series data found for \"" ++ ticker ++ "\".")
    | .ok (some h) => .ok h

/-- `getNewsData` (src/index.js lines 53-64): throws without the FMP key
(before the try block); inside the try, any axios error is caught and an
empty array returned; a 2xx payload is returned as `response.data || []`,
so falsy payloads become `[]` and truthy payloads pass through verbatim. -/
def getNewsData (fmpKey : Option String) (resp : NewsOutcome) :
    Except String NewsVal :=
  match fmpKey with
  | none => .error "FMP API key not configured."
  | some _ =>
    match resp with
    | .netErr _ => .ok (.arr [])
    | .ok .nullish => .ok (.arr [])
    | .ok (.arr items) => .ok (.arr items)
    | .ok (.other v) => .ok (.other v)

/-- `getGeminiAnalysis` (src/index.js lines 73-110): throws without the
Gemini key (before the try block). Inside the try: an axios error, a
missing/empty `candidates` list (the inner throw of "Invalid response
structure" is itself caught by the same catch), or a JSON.parse failure
all surface as "Failed to get analysis from Gemini API."; otherwise the
parsed first candidate is returned. -/
def getGeminiAnalysis (geminiKey : Option String) (resp : GeminiOutcome) :
    Except String Analysis :=
  match geminiKey with
  | none => .error "Gemini API key not configured."
  | some _ =>
    match resp with
    | .netErr _ => .error "Failed to get analysis from Gemini API."
    | .ok cands =>
      match cands.head? with
      | none => .error "Failed to get analysis from Gemini API."
      | some none => .error "Failed to get analysis from Gemini API."
      | some (some a) => .ok a

/-- One character of the ticker character class `[A-Z0-9.-]`. -/
def tickerChar (c : Char) : Bool :=
  (decide ('A' ≤ c) && decide (c ≤ 'Z')) ||
  (decide ('0' ≤ c) && decide (c ≤ '9')) ||
  (c == '.') || (c == '-')

/-- The regex test `/^[A-Z0-9.-]{1,10}$/.test s` (src/index.js line 120). -/
def validTicker (s : String) : Bool :=
  decide (1 ≤ s.length) && decide (s.length ≤ 10) && s.data.all tickerChar

/-- JS `String.prototype.toUpperCase`, modelled ASCII-wise, character by
character. -/
def upperStr (s : String) : String :=
  String.mk (s.data.map Char.toUpper)

/-- JS `Number.prototype.toFixed(2)` applied to
`parseFloat(historicalData[0].close)` (src/index.js line 145), modelled as
ideal decimal rounding (half away from zero) of a rational price. -/
def toFixed2 (q : Rat) : String :=
  let sgn := if q < 0 then "-" else ""
  let cents : Nat := (200 * q.num.natAbs + q.den) / (2 * q.den)
  let whole := cents / 100
  let frac := cents % 100
  let fracStr := if frac < 10 then "0" ++ toString frac else toString frac
  sgn ++ toString whole ++ "." ++ fracStr

/-- The response body assembled on success (src/index.js lines 139-151).
`lastPrice` is the body's `analysis.lastPrice`; `timestamp` is the
`new Date().toISOString()` instant taken during assembly, modelled as a
millisecond instant. -/
structure MarketPulseResult where
  ticker : String
  pulse : String
  reason : String
  confidence : String
  lastPrice : String
  history : List HistPoint
  news : NewsVal
  timestamp : Nat
  deriving DecidableEq

/-- A cache entry as written on line 153: `cache.set(ticker, { timestamp:
now, data: result })`. The `timestamp` field is the entry's creation
instant compared against the TTL on line 124. -/
structure CacheEntry where
  timestamp : Nat
  data : MarketPulseResult
  deriving DecidableEq

/-- The in-memory `Map` keyed by ticker, modelled as an association
list. -/
abbrev Cache := List (String × CacheEntry)

/-- `cache.get(ticker)` / `cache.has(ticker)`. -/
def Cache.find (c : Cache) (k : String) : Option CacheEntry :=
  match c with
  | [] => none
  | (k₂, v) :: rest => if k₂ = k then some v else Cache.find rest k

/-- `cache.set(ticker, entry)`: overwrite the binding if present,
otherwise append. -/
def Cache.set (c : Cache) (k : String) (v : CacheEntry) : Cache :=
  match c with
  | [] => [(k, v)]
  | (k₂, v₂) :: rest =>
    if k₂ = k then (k, v) :: rest else (k₂, v₂) :: Cache.set rest k v

/-- The cache-hit test of line 124: `cache.has(ticker) && (now -
cache.get(ticker).timestamp < 600000)`. -/
def isCacheHit (cache : Cache) (ticker : String) (now : Nat) : Bool :=
  match Cache.find cache ticker with
  | none => false
  | some e => decide ((now : Int) - (e.timestamp : Int) < 600000)

/-- The environment of one request: configuration and the outcome of each
upstream call the handler may make, plus the time `elapsed` (ms) between
request arrival (`Date.now()` on line 118) and result assembly. -/
structure Env where
  fmpKey : Option String
  geminiKey : Option String
  hist : HistOutcome
  news : NewsOutcome
  gemini : GeminiOutcome
  elapsed : Nat
  deriving DecidableEq

/-- Which upstream clients were invoked while serving a request. -/
structure Trace where
  histCalled : Bool
  newsCalled : Bool
  geminiCalled : Bool
  deriving DecidableEq

/-- No upstream client invoked. -/
def Trace.silent : Trace := ⟨false, false, false⟩

/-- The HTTP response of `GET /market-pulse/:ticker`. -/
inductive Response where
  | ok (body : MarketPulseResult)
  | badRequest (error : String)
  | serverError (error : String)
  deriving DecidableEq

/-- `Promise.all([p1, p2])` over already-settled outcomes: rejects with
the first promise's error if it rejected, else with the second's, else
resolves with the pair. (Both functions have already been invoked.) -/
def promiseAll2 {α β : Type} (a : Except String α) (b : Except String β) :
    Except String (α × β) :=
  match a with
  | .error e => .error e
  | .ok va =>
    match b with
    | .error e => .error e
    | .ok vb => .ok (va, vb)

/-- The `try` block of the handler (src/index.js lines 130-155): fan out
to the historical and news clients, await both, call Gemini with the full
historical series, assemble the result, write the cache. The `catch`
(lines 156-159) turns any thrown error into a 500 whose body carries the
error message; reading `historicalData[0].close` of an empty series
throws a TypeError that the same catch turns into a 500. -/
def fetchAndAssemble (env : Env) (cache : Cache) (ticker : String)
    (now : Nat) : Response × Cache × Trace :=
  match promiseAll2 (getHistoricalData env.fmpKey ticker env.hist)
      (getNewsData env.fmpKey env.news) with
  | .error e => (.serverError e, cache, ⟨true, true, false⟩)
  | .ok (historicalData, newsData) =>
    match getGeminiAnalysis env.geminiKey env.gemini with
    | .error e => (.serverError e, cache, ⟨true, true, true⟩)
    | .ok analysis =>
      match historicalData with
      | [] =>
        (.serverError "Cannot read properties of undefined (reading close)",
          cache, ⟨true, true, true⟩)
      | p :: rest =>
        let result : MarketPulseResult :=
          ⟨ticker, analysis.pulse, analysis.reason, analysis.confidence,
            toFixed2 p.close, (p :: rest).take 20, newsData,
            now + env.elapsed⟩
        (.ok result, Cache.set cache ticker ⟨now, result⟩, ⟨true, true, true⟩)

/-- The full handler of `GET /market-pulse/:ticker` (src/index.js lines
116-160): uppercase the ticker, validate it, consult the cache, and on a
miss run `fetchAndAssemble`. Returns the response, the cache after the
request, and the set of upstream clients invoked. -/
def marketPulseHandler (env : Env) (cache : Cache) (rawTicker : String)
    (now : Nat) : Response × Cache × Trace :=
  let ticker := upperStr rawTicker
  if validTicker ticker then
    match Cache.find cache ticker with
    | some e =>
      if (now : Int) - (e.timestamp : Int) < 600000 then
        (.ok e.data, cache, Trace.silent)
      else
        fetchAndAssemble env cache ticker now
    | none => fetchAndAssemble env cache ticker now
  else
    (.badRequest "Invalid ticker format.", cache, Trace.silent)

/-- Extract the `pulse` field of a 200 body. -/
def respPulse (r : Response) : Option String :=
  match r with
  | .ok body => some body.pulse
  | _ => none

/-- Extract the `confidence` field of a 200 body. -/
def respConfidence (r : Response) : Option String :=
  match r with
  | .ok body => some body.confidence
  | _ => none

/-- Extract the `news` field of a 200 body. -/
def respNews (r : Response) : Option NewsVal :=
  match r with
  | .ok body => some body.news
  | _ => none

/-- Extract the `timestamp` field of a 200 body. -/
def respTimestamp (r : Response) : Option Nat :=
  match r with
  | .ok body => some body.timestamp
  | _ => none

/-- Number of news items of a 200 body whose news value is an array. -/
def respNewsCount (r : Response) : Option Nat :=
  match r with
  | .ok body =>
    match body.news with
    | .arr l => some l.length
    | .other _ => none
  | _ => none

/-- Looking up the key just written returns the written entry. -/
theorem Cache.find_set (c : Cache) (k : String) (v : CacheEntry) :
    Cache.find (Cache.set c k v) k = some v := by
  induction c with
  | nil => simp [Cache.set, Cache.find]
  | cons hd tl ih =>
    obtain ⟨k₂, v₂⟩ := hd
    unfold Cache.set
    by_cases h : k₂ = k
    · simp [h, Cache.find]
    · simp [h, Cache.find, ih]

/-- A concrete historical point used in concrete runs. -/
def samplePoint : HistPoint := ⟨"2024-01-02", 150, 1000⟩

/-- A concrete parsed Gemini analysis used in concrete runs. -/
def sampleAnalysis : Analysis := ⟨"Bullish", "Upward momentum.", "High"⟩

/-- Both clients of the `Promise.all` fan-out are invoked on every run of
the try block, whatever the outcomes. -/
theorem fetchAndAssemble_calls (env : Env) (cache : Cache) (ticker : String)
    (now : Nat) :
    (fetchAndAssemble env cache ticker now).2.2.histCalled = true ∧
    (fetchAndAssemble env cache ticker now).2.2.newsCalled = true := by
  unfold fetchAndAssemble
  rcases promiseAll2 (getHistoricalData env.fmpKey ticker env.hist)
      (getNewsData env.fmpKey env.news) with e | ⟨hd, nd⟩
  · exact ⟨rfl, rfl⟩
  · rcases getGeminiAnalysis env.geminiKey env.gemini with e | a
    · exact ⟨rfl, rfl⟩
    · rcases hd with _ | ⟨p, rest⟩ <;> exact ⟨rfl, rfl⟩

/-- Every run of the try block returns either a 500 leaving the cache
unchanged, or a 200 whose body is keyed to the requested ticker and
written to the cache. -/
theorem fetchAndAssemble_cases (env : Env) (cache : Cache) (ticker : String)
    (now : Nat) :
    (∃ e tr, fetchAndAssemble env cache ticker now =
      (.serverError e, cache, tr)) ∨
    (∃ body, fetchAndAssemble env cache ticker now =
        (.ok body, Cache.set cache ticker ⟨now, body⟩, ⟨true, true, true⟩) ∧
      body.ticker = ticker ∧ body.timestamp = now + env.elapsed) := by
  unfold fetchAndAssemble
  rcases promiseAll2 (getHistoricalData env.fmpKey ticker env.hist)
      (getNewsData env.fmpKey env.news) with e | ⟨hd, nd⟩
  · exact Or.inl ⟨e, _, rfl⟩
  · rcases getGeminiAnalysis env.geminiKey env.gemini with e | a
    · exact Or.inl ⟨e, _, rfl⟩
    · rcases hd with _ | ⟨p, rest⟩
      · exact Or.inl ⟨_, _, rfl⟩
      · exact Or.inr ⟨_, rfl, rfl, rfl⟩

/-- On a valid ticker and a cache miss the handler runs the try block. -/
theorem handler_valid_miss (env : Env) (cache : Cache) (raw : String)
    (now : Nat) (hv : validTicker (upperStr raw) = true)
    (hm : isCacheHit cache (upperStr raw) now = false) :
    marketPulseHandler env cache raw now =
      fetchAndAssemble env cache (upperStr raw) now := by
  unfold marketPulseHandler
  unfold isCacheHit at hm
  cases hfind : Cache.find cache (upperStr raw) with
  | none => simp [hv, hfind]
  | some e =>
    rw [hfind] at hm
    simp only [decide_eq_false_iff_not] at hm
    simp [hv, hfind, hm]

/-- The line-124 hit test unfolded: hit exactly when an entry exists and
is younger than the TTL. -/
theorem isCacheHit_iff (cache : Cache) (ticker : String) (now : Nat) :
    isCacheHit cache ticker now = true ↔
      ∃ e, Cache.find cache ticker = some e ∧
        (now : Int) - (e.timestamp : Int) < 600000 := by
  unfold isCacheHit
  cases hfind : Cache.find cache ticker <;> simp

/-- On a valid ticker and a fresh cache entry the handler returns the
cached result, leaves the cache unchanged, and calls nothing upstream. -/
theorem handler_valid_hit (env : Env) (cache : Cache) (raw : String)
    (now : Nat) (hv : validTicker (upperStr raw) = true) (e : CacheEntry)
    (hfind : Cache.find cache (upperStr raw) = some e)
    (hfresh : (now : Int) - (e.timestamp : Int) < 600000) :
    marketPulseHandler env cache raw now = (.ok e.data, cache, Trace.silent) := by
  unfold marketPulseHandler
  simp [hv, hfind, hfresh]

/-- On an invalid ticker the handler returns the 400 immediately. -/
theorem handler_invalid (env : Env) (cache : Cache) (raw : String)
    (now : Nat) (hv : validTicker (upperStr raw) = false) :
    marketPulseHandler env cache raw now =
      (.badRequest "Invalid ticker format.", cache, Trace.silent) := by
  unfold marketPulseHandler
  simp [hv]

/-- A concrete assembled result, cache and environment for concrete
runs of the handler. -/
def sampleResult : MarketPulseResult :=
  ⟨"AAPL", "Bullish", "Upward momentum.", "High", "150.00", [samplePoint],
    .arr [], 500⟩

/-- A cache holding a fresh entry for AAPL created at instant 400. -/
def sampleCache : Cache := [("AAPL", ⟨400, sampleResult⟩)]

/-- An environment in which every upstream call succeeds. -/
def sampleEnv : Env :=
  ⟨some "fmp", some "gem", .ok (some [samplePoint]), .ok (.arr []),
    .ok [some sampleAnalysis], 0⟩

/-- C1: for a validated ticker, the cache lookup is a hit exactly when an
entry exists whose age `now - createdAt` is strictly below 600000 ms; on
a hit the previously assembled result is returned with no upstream client
invoked and the cache unchanged; on a stale or absent entry the request
performs a fresh upstream fetch (both data clients are invoked). -/
theorem cache_ttl_semantics (env : Env) (cache : Cache) (raw : String)
    (now : Nat) (hv : validTicker (upperStr raw) = true) :
    (isCacheHit cache (upperStr raw) now = true ↔
      ∃ e, Cache.find cache (upperStr raw) = some e ∧
        (now : Int) - (e.timestamp : Int) < 600000) ∧
    (∀ e, Cache.find cache (upperStr raw) = some e →
      isCacheHit cache (upperStr raw) now = true →
      marketPulseHandler env cache raw now =
        (.ok e.data, cache, Trace.silent)) ∧
    (isCacheHit cache (upperStr raw) now = false →
      (marketPulseHandler env cache raw now).2.2.histCalled = true ∧
      (marketPulseHandler env cache raw now).2.2.newsCalled = true) := by
  refine ⟨?_, ?_, ?_⟩
  · unfold isCacheHit
    cases hfind : Cache.find cache (upperStr raw) with
    | none => simp
    | some e => simp
  · intro e hfind hhit
    unfold isCacheHit at hhit
    rw [hfind] at hhit
    simp only [decide_eq_true_eq] at hhit
    unfold marketPulseHandler
    simp [hv, hfind, hhit]
  · intro hmiss
    rw [handler_valid_miss env cache raw now hv hmiss]
    exact fetchAndAssemble_calls env cache (upperStr raw) now

/-- Witness for C1 at a concrete input: lowercase request `aapl` against
a cache whose AAPL entry is 600 ms old. -/
theorem cache_ttl_semantics_witness :
    validTicker (upperStr "aapl") = true ∧
    ((isCacheHit sampleCache (upperStr "aapl") 1000 = true ↔
      ∃ e, Cache.find sampleCache (upperStr "aapl") = some e ∧
        (1000 : Int) - (e.timestamp : Int) < 600000) ∧
    (∀ e, Cache.find sampleCache (upperStr "aapl") = some e →
      isCacheHit sampleCache (upperStr "aapl") 1000 = true →
      marketPulseHandler sampleEnv sampleCache "aapl" 1000 =
        (.ok e.data, sampleCache, Trace.silent)) ∧
    (isCacheHit sampleCache (upperStr "aapl") 1000 = false →
      (marketPulseHandler sampleEnv sampleCache "aapl" 1000).2.2.histCalled
        = true ∧
      (marketPulseHandler sampleEnv sampleCache "aapl" 1000).2.2.newsCalled
        = true)) :=
  ⟨by decide, cache_ttl_semantics sampleEnv sampleCache "aapl" 1000 (by decide)⟩

/-- C2: the handler answers 400 with body error "Invalid ticker format."
exactly when the uppercased raw ticker fails the regex; in that case the
cache is untouched and no upstream client is invoked; when the ticker is
accepted the pipeline proceeds under the uppercased ticker: any 200 body
carries it and any cache write is keyed by it. -/
theorem ticker_validation (env : Env) (cache : Cache) (raw : String)
    (now : Nat) :
    ((marketPulseHandler env cache raw now).1 =
        .badRequest "Invalid ticker format." ↔
      validTicker (upperStr raw) = false) ∧
    (validTicker (upperStr raw) = false →
      marketPulseHandler env cache raw now =
        (.badRequest "Invalid ticker format.", cache, Trace.silent)) ∧
    (validTicker (upperStr raw) = true →
      isCacheHit cache (upperStr raw) now = false →
      ∀ body c tr, marketPulseHandler env cache raw now = (.ok body, c, tr) →
        body.ticker = upperStr raw ∧
        c = Cache.set cache (upperStr raw) ⟨now, body⟩) := by
  refine ⟨⟨?_, ?_⟩, handler_invalid env cache raw now, ?_⟩
  · intro hbad
    cases hv : validTicker (upperStr raw) with
    | false => rfl
    | true =>
      exfalso
      by_cases hhit : isCacheHit cache (upperStr raw) now = true
      · obtain ⟨e, hfind, hfresh⟩ := (isCacheHit_iff _ _ _).mp hhit
        rw [handler_valid_hit env cache raw now hv e hfind hfresh] at hbad
        exact Response.noConfusion hbad
      · rw [Bool.not_eq_true] at hhit
        rw [handler_valid_miss env cache raw now hv hhit] at hbad
        rcases fetchAndAssemble_cases env cache (upperStr raw) now with
          ⟨e, tr, h2⟩ | ⟨body, h2, hbt, hbs⟩
        · rw [h2] at hbad
          exact Response.noConfusion hbad
        · rw [h2] at hbad
          exact Response.noConfusion hbad
  · intro h
    rw [handler_invalid env cache raw now h]
  · intro hv hmiss body c tr heq
    rw [handler_valid_miss env cache raw now hv hmiss] at heq
    rcases fetchAndAssemble_cases env cache (upperStr raw) now with
      ⟨e, tr2, h2⟩ | ⟨body2, h2, hbt, hbs⟩
    · rw [h2] at heq
      simp only [Prod.mk.injEq] at heq
      exact absurd heq.1 (fun h3 => Response.noConfusion h3)
    · rw [h2] at heq
      simp only [Prod.mk.injEq, Response.ok.injEq] at heq
      obtain ⟨hb, hc, htr⟩ := heq
      subst hb
      exact ⟨hbt, hc.symm⟩

/-- Witness for C2 at a concrete input: the raw ticker "AA PL" is
rejected with a 400, the cache stays empty and nothing upstream runs. -/
theorem ticker_validation_witness :
    validTicker (upperStr "AA PL") = false ∧
    marketPulseHandler sampleEnv [] "AA PL" 0 =
      (.badRequest "Invalid ticker format.", [], Trace.silent) :=
  ⟨by decide, (ticker_validation sampleEnv [] "AA PL" 0).2.1 (by decide)⟩

/-- When all three upstream steps succeed and the history is nonempty,
the try block assembles the documented result and writes it to the
cache under the requested ticker with creation instant `now`. -/
theorem fetchAndAssemble_success (env : Env) (cache : Cache)
    (ticker : String) (now : Nat) (p : HistPoint) (rest : List HistPoint)
    (nv : NewsVal) (a : Analysis)
    (hh : getHistoricalData env.fmpKey ticker env.hist = .ok (p :: rest))
    (hn : getNewsData env.fmpKey env.news = .ok nv)
    (hg : getGeminiAnalysis env.geminiKey env.gemini = .ok a) :
    fetchAndAssemble env cache ticker now =
      (.ok ⟨ticker, a.pulse, a.reason, a.confidence, toFixed2 p.close,
          (p :: rest).take 20, nv, now + env.elapsed⟩,
        Cache.set cache ticker
          ⟨now, ⟨ticker, a.pulse, a.reason, a.confidence, toFixed2 p.close,
            (p :: rest).take 20, nv, now + env.elapsed⟩⟩,
        ⟨true, true, true⟩) := by
  unfold fetchAndAssemble promiseAll2
  rw [hh, hn, hg]

/-- Taking a prefix of `n` elements is taking `min (length) n`. -/
theorem take_min_length {α : Type} (l : List α) (n : Nat) :
    l.take n = l.take (min l.length n) := by
  rcases Nat.le_total l.length n with h | h
  · rw [Nat.min_eq_left h, List.take_length, List.take_of_length_le h]
  · rw [Nat.min_eq_right h]

/-- An environment whose news call returns a truthy non-array payload
(a 2xx response whose body is, e.g., a provider error object). -/
def newsMalformedEnv : Env :=
  ⟨some "fmp", some "gem", .ok (some [samplePoint]),
    .ok (.other "limit reached object"), .ok [some sampleAnalysis], 0⟩

/-- Counterexample to C4: on a malformed (truthy, non-array) 2xx news
payload the request still succeeds, but the `news` field is the payload
passed through verbatim by `response.data || []`, not the empty
sequence the claim requires. -/
theorem news_malformed_passthrough :
    respNews (marketPulseHandler newsMalformedEnv [] "AAPL" 0).1 =
      some (.other "limit reached object") ∧
    some (NewsVal.other "limit reached object") ≠ some (NewsVal.arr []) := by
  constructor
  · rfl
  · decide

/-- An environment whose news call throws a network error. -/
def newsFailEnv : Env :=
  ⟨some "fmp", some "gem", .ok (some [samplePoint]),
    .netErr "news service down", .ok [some sampleAnalysis], 0⟩

/-- C4 (amended): when the news call throws (network error or non-2xx
status) or returns a falsy payload, no error is propagated: the news
value is the empty sequence and, provided the historical fetch succeeds
with a nonempty series and the sentiment step succeeds, the request
answers 200 with `news = []` and the sentiment fields filled in. A
truthy malformed payload, by contrast, is passed through verbatim. -/
theorem news_soft_fail (env : Env) (cache : Cache) (raw : String)
    (now : Nat) (k : String) (p : HistPoint) (rest : List HistPoint)
    (a : Analysis)
    (hv : validTicker (upperStr raw) = true)
    (hmiss : isCacheHit cache (upperStr raw) now = false)
    (hkey : env.fmpKey = some k)
    (hnews : (∃ m, env.news = .netErr m) ∨ env.news = .ok .nullish)
    (hh : getHistoricalData env.fmpKey (upperStr raw) env.hist = .ok (p :: rest))
    (hg : getGeminiAnalysis env.geminiKey env.gemini = .ok a) :
    marketPulseHandler env cache raw now =
      (.ok ⟨upperStr raw, a.pulse, a.reason, a.confidence,
          toFixed2 p.close, (p :: rest).take 20, .arr [],
          now + env.elapsed⟩,
        Cache.set cache (upperStr raw)
          ⟨now, ⟨upperStr raw, a.pulse, a.reason, a.confidence,
            toFixed2 p.close, (p :: rest).take 20, .arr [],
            now + env.elapsed⟩⟩,
        ⟨true, true, true⟩) := by
  have hn : getNewsData env.fmpKey env.news = .ok (.arr []) := by
    rw [hkey]
    rcases hnews with ⟨m, hm⟩ | hm <;> rw [hm] <;> rfl
  rw [handler_valid_miss env cache raw now hv hmiss]
  exact fetchAndAssemble_success env cache (upperStr raw) now p rest
    (.arr []) a hh hn hg

/-- Witness for the amended C4 at a concrete input: the news service is
down, yet the request answers 200 with empty news and the sentiment
fields of the sample analysis. -/
theorem news_soft_fail_witness :
    validTicker (upperStr "AAPL") = true ∧
    marketPulseHandler newsFailEnv [] "AAPL" 0 =
      (.ok ⟨upperStr "AAPL", sampleAnalysis.pulse, sampleAnalysis.reason,
          sampleAnalysis.confidence, toFixed2 samplePoint.close,
          [samplePoint].take 20, .arr [], 0 + newsFailEnv.elapsed⟩,
        Cache.set [] (upperStr "AAPL")
          ⟨0, ⟨upperStr "AAPL", sampleAnalysis.pulse, sampleAnalysis.reason,
            sampleAnalysis.confidence, toFixed2 samplePoint.close,
            [samplePoint].take 20, .arr [], 0 + newsFailEnv.elapsed⟩⟩,
        ⟨true, true, true⟩) :=
  ⟨by decide,
    news_soft_fail newsFailEnv [] "AAPL" 0 "fmp" samplePoint [] sampleAnalysis
      (by decide) (by decide) rfl (Or.inl ⟨"news service down", rfl⟩) rfl rfl⟩

/-- C6: on a successful cache-miss request with a nonempty historical
series, the assembled body has `analysis.lastPrice` equal to the first
(most recent) point's close formatted to two decimals, `history` equal
to the first `min n 20` points in their original order, `news` equal to
the news step's value, and `pulse`, `reason`, `confidence` equal to the
sentiment step's output. -/
theorem result_assembly (env : Env) (cache : Cache) (raw : String)
    (now : Nat) (p : HistPoint) (rest : List HistPoint) (nv : NewsVal)
    (a : Analysis)
    (hv : validTicker (upperStr raw) = true)
    (hmiss : isCacheHit cache (upperStr raw) now = false)
    (hh : getHistoricalData env.fmpKey (upperStr raw) env.hist = .ok (p :: rest))
    (hn : getNewsData env.fmpKey env.news = .ok nv)
    (hg : getGeminiAnalysis env.geminiKey env.gemini = .ok a) :
    marketPulseHandler env cache raw now =
      (.ok ⟨upperStr raw, a.pulse, a.reason, a.confidence,
          toFixed2 p.close, (p :: rest).take 20, nv, now + env.elapsed⟩,
        Cache.set cache (upperStr raw)
          ⟨now, ⟨upperStr raw, a.pulse, a.reason, a.confidence,
            toFixed2 p.close, (p :: rest).take 20, nv, now + env.elapsed⟩⟩,
        ⟨true, true, true⟩) ∧
    (p :: rest).take 20 =
      (p :: rest).take (min (p :: rest).length 20) := by
  constructor
  · rw [handler_valid_miss env cache raw now hv hmiss]
    exact fetchAndAssemble_success env cache (upperStr raw) now p rest nv a
      hh hn hg
  · exact take_min_length (p :: rest) 20

/-- Witness for C6 at a concrete input: a 25-point series yields a body
whose history is its 20-point prefix, with the sample sentiment and a
two-decimal last price. -/
theorem result_assembly_witness :
    validTicker (upperStr "AAPL") = true ∧
    marketPulseHandler
        ⟨some "fmp", some "gem",
          .ok (some (List.replicate 25 samplePoint)), .ok (.arr []),
          .ok [some sampleAnalysis], 7⟩ [] "AAPL" 100 =
      (.ok ⟨upperStr "AAPL", sampleAnalysis.pulse, sampleAnalysis.reason,
          sampleAnalysis.confidence, toFixed2 samplePoint.close,
          (samplePoint :: List.replicate 24 samplePoint).take 20, .arr [],
          100 + 7⟩,
        Cache.set [] (upperStr "AAPL")
          ⟨100, ⟨upperStr "AAPL", sampleAnalysis.pulse,
            sampleAnalysis.reason, sampleAnalysis.confidence,
            toFixed2 samplePoint.close,
            (samplePoint :: List.replicate 24 samplePoint).take 20, .arr [],
            100 + 7⟩⟩,
        ⟨true, true, true⟩) ∧
    (samplePoint :: List.replicate 24 samplePoint).take 20 =
      (samplePoint :: List.replicate 24 samplePoint).take
        (min (samplePoint :: List.replicate 24 samplePoint).length 20) :=
  ⟨by decide,
    result_assembly
      ⟨some "fmp", some "gem", .ok (some (List.replicate 25 samplePoint)),
        .ok (.arr []), .ok [some sampleAnalysis], 7⟩
      [] "AAPL" 100 samplePoint (List.replicate 24 samplePoint) (.arr [])
      sampleAnalysis (by decide) (by decide) rfl rfl rfl⟩

/-- An environment whose historical fetch throws a network error. -/
def histFailEnv : Env :=
  ⟨some "fmp", some "gem", .netErr "getaddrinfo ENOTFOUND", .ok (.arr []),
    .ok [some sampleAnalysis], 0⟩

/-- C3: if the historical fetch fails (key missing, request threw, or
payload without a recognizable history field), the request answers 500
carrying that failure's message, the cache is unchanged, the Gemini
client is never invoked, and the news result (fetched in the same
fan-out) is discarded: the error response carries no news. -/
theorem historical_failure_fatal (env : Env) (cache : Cache) (raw : String)
    (now : Nat) (e : String)
    (hv : validTicker (upperStr raw) = true)
    (hmiss : isCacheHit cache (upperStr raw) now = false)
    (hh : getHistoricalData env.fmpKey (upperStr raw) env.hist = .error e) :
    marketPulseHandler env cache raw now =
      (.serverError e, cache, ⟨true, true, false⟩) := by
  rw [handler_valid_miss env cache raw now hv hmiss]
  unfold fetchAndAssemble promiseAll2
  rw [hh]

/-- Witness for C3 at a concrete input: an unreachable data provider
turns into a 500 with its message, an empty cache stays empty, and the
Gemini client is not called. -/
theorem historical_failure_fatal_witness :
    validTicker (upperStr "MSFT") = true ∧
    isCacheHit [] (upperStr "MSFT") 0 = false ∧
    getHistoricalData histFailEnv.fmpKey (upperStr "MSFT") histFailEnv.hist
      = .error "getaddrinfo ENOTFOUND" ∧
    marketPulseHandler histFailEnv [] "MSFT" 0 =
      (.serverError "getaddrinfo ENOTFOUND", [], ⟨true, true, false⟩) :=
  ⟨by decide, by decide, rfl,
    historical_failure_fatal histFailEnv [] "MSFT" 0 "getaddrinfo ENOTFOUND"
      (by decide) (by decide) rfl⟩

/-- An environment whose Gemini call throws a network error. -/
def geminiFailEnv : Env :=
  ⟨some "fmp", some "gem", .ok (some [samplePoint]), .ok (.arr []),
    .netErr "socket hang up", 0⟩

/-- C5: if the sentiment step fails (service unreachable, no usable
candidate, or unparseable candidate text), the request answers 500 with
the step's error message, no partial result body is produced, and the
cache is unchanged for that ticker. -/
theorem sentiment_failure_fatal (env : Env) (cache : Cache) (raw : String)
    (now : Nat) (e : String) (hd : List HistPoint) (nv : NewsVal)
    (hv : validTicker (upperStr raw) = true)
    (hmiss : isCacheHit cache (upperStr raw) now = false)
    (hh : getHistoricalData env.fmpKey (upperStr raw) env.hist = .ok hd)
    (hn : getNewsData env.fmpKey env.news = .ok nv)
    (hg : getGeminiAnalysis env.geminiKey env.gemini = .error e) :
    marketPulseHandler env cache raw now =
      (.serverError e, cache, ⟨true, true, true⟩) := by
  rw [handler_valid_miss env cache raw now hv hmiss]
  unfold fetchAndAssemble promiseAll2
  rw [hh, hn, hg]

/-- Witness for C5 at a concrete input: an unreachable Gemini service
turns into a 500 (with the message the catch block substitutes) and the
empty cache stays empty. -/
theorem sentiment_failure_fatal_witness :
    validTicker (upperStr "MSFT") = true ∧
    isCacheHit [] (upperStr "MSFT") 0 = false ∧
    getGeminiAnalysis geminiFailEnv.geminiKey geminiFailEnv.gemini
      = .error "Failed to get analysis from Gemini API." ∧
    marketPulseHandler geminiFailEnv [] "MSFT" 0 =
      (.serverError "Failed to get analysis from Gemini API.", [],
        ⟨true, true, true⟩) :=
  ⟨by decide, by decide, rfl,
    sentiment_failure_fatal geminiFailEnv [] "MSFT" 0
      "Failed to get analysis from Gemini API." [samplePoint] (.arr [])
      (by decide) (by decide) rfl rfl rfl⟩

/-- A successful environment in which fetching and assembly take 5 ms. -/
def elapsedEnv : Env :=
  ⟨some "fmp", some "gem", .ok (some [samplePoint]), .ok (.arr []),
    .ok [some sampleAnalysis], 5⟩

/-- Counterexample to C7: on a successful cache-miss request arriving at
instant 1000 whose fetches and assembly take 5 ms, the write happens at
instant 1005 (the instant the body's own timestamp records), yet the
cache entry's creation instant is 1000, the `Date.now()` captured at
request arrival before the upstream fetches. -/
theorem cache_createdAt_counterexample :
    (Cache.find (marketPulseHandler elapsedEnv [] "AAPL" 1000).2.1
        "AAPL").map CacheEntry.timestamp = some 1000 ∧
    respTimestamp (marketPulseHandler elapsedEnv [] "AAPL" 1000).1 =
      some 1005 ∧
    (1000 : Nat) ≠ 1005 := by
  refine ⟨rfl, rfl, by decide⟩

/-- C7 (amended): on a successful cache-miss request the cache entry
written for the normalized ticker has its creation instant (the value
later compared against the 10-minute TTL) equal to the `Date.now()`
captured at request arrival, before the upstream fetches; the instant
after fetch and assembly, `now + elapsed`, is recorded in the body's
timestamp field instead. -/
theorem cache_createdAt_is_arrival (env : Env) (cache : Cache)
    (raw : String) (now : Nat) (p : HistPoint) (rest : List HistPoint)
    (nv : NewsVal) (a : Analysis)
    (hv : validTicker (upperStr raw) = true)
    (hmiss : isCacheHit cache (upperStr raw) now = false)
    (hh : getHistoricalData env.fmpKey (upperStr raw) env.hist = .ok (p :: rest))
    (hn : getNewsData env.fmpKey env.news = .ok nv)
    (hg : getGeminiAnalysis env.geminiKey env.gemini = .ok a) :
    ∃ r, marketPulseHandler env cache raw now =
        (.ok r, Cache.set cache (upperStr raw) ⟨now, r⟩, ⟨true, true, true⟩) ∧
      Cache.find (marketPulseHandler env cache raw now).2.1 (upperStr raw) =
        some ⟨now, r⟩ ∧
      r.timestamp = now + env.elapsed := by
  have hrun := fetchAndAssemble_success env cache (upperStr raw) now p rest
    nv a hh hn hg
  rw [handler_valid_miss env cache raw now hv hmiss, hrun]
  exact ⟨_, rfl, Cache.find_set cache (upperStr raw) _, rfl⟩

/-- Witness for the amended C7 at a concrete input: arrival at 1000,
5 ms of upstream work; the cache entry is created at 1000, the body
timestamp at 1005. -/
theorem cache_createdAt_is_arrival_witness :
    validTicker (upperStr "AAPL") = true ∧
    ∃ r, marketPulseHandler elapsedEnv [] "AAPL" 1000 =
        (.ok r, Cache.set [] (upperStr "AAPL") ⟨1000, r⟩,
          ⟨true, true, true⟩) ∧
      Cache.find (marketPulseHandler elapsedEnv [] "AAPL" 1000).2.1
        (upperStr "AAPL") = some ⟨1000, r⟩ ∧
      r.timestamp = 1000 + elapsedEnv.elapsed :=
  ⟨by decide,
    cache_createdAt_is_arrival elapsedEnv [] "AAPL" 1000 samplePoint []
      (.arr []) sampleAnalysis (by decide) (by decide) rfl rfl rfl⟩

/-- An environment whose Gemini candidate parses to labels outside the
documented vocabularies. -/
def offVocabEnv : Env :=
  ⟨some "fmp", some "gem", .ok (some [samplePoint]), .ok (.arr []),
    .ok [some ⟨"Sideways", "Choppy tape.", "Certain"⟩], 0⟩

/-- Counterexample to C8: the AI service can return a JSON text whose
pulse is "Sideways" and confidence "Certain"; the handler passes both
verbatim into a 200 response, so the response fields are not confined to
the documented vocabularies. -/
theorem pulse_vocabulary_counterexample :
    respPulse (marketPulseHandler offVocabEnv [] "AAPL" 0).1 =
      some "Sideways" ∧
    respConfidence (marketPulseHandler offVocabEnv [] "AAPL" 0).1 =
      some "Certain" ∧
    ("Sideways" ≠ "Bullish" ∧ "Sideways" ≠ "Bearish" ∧
      "Sideways" ≠ "Neutral") ∧
    ("Certain" ≠ "Low" ∧ "Certain" ≠ "Medium" ∧ "Certain" ≠ "High") :=
  ⟨rfl, rfl, by decide, by decide⟩

/-- C8 (amended): the pulse and confidence of every 200 response produced
by a cache-miss request equal, verbatim and unvalidated, the pulse and
confidence of the JSON object parsed from the AI's first candidate; they
lie in the closed vocabularies exactly when the AI's text does. -/
theorem pulse_passthrough (env : Env) (cache : Cache) (raw : String)
    (now : Nat) (p : HistPoint) (rest : List HistPoint) (nv : NewsVal)
    (a : Analysis)
    (hv : validTicker (upperStr raw) = true)
    (hmiss : isCacheHit cache (upperStr raw) now = false)
    (hh : getHistoricalData env.fmpKey (upperStr raw) env.hist = .ok (p :: rest))
    (hn : getNewsData env.fmpKey env.news = .ok nv)
    (hg : getGeminiAnalysis env.geminiKey env.gemini = .ok a) :
    respPulse (marketPulseHandler env cache raw now).1 = some a.pulse ∧
    respConfidence (marketPulseHandler env cache raw now).1 =
      some a.confidence := by
  rw [handler_valid_miss env cache raw now hv hmiss,
    fetchAndAssemble_success env cache (upperStr raw) now p rest nv a
      hh hn hg]
  exact ⟨rfl, rfl⟩

/-- Witness for the amended C8 at a concrete input: the off-vocabulary
labels flow through verbatim. -/
theorem pulse_passthrough_witness :
    validTicker (upperStr "AAPL") = true ∧
    respPulse (marketPulseHandler offVocabEnv [] "AAPL" 0).1 =
      some (Analysis.pulse ⟨"Sideways", "Choppy tape.", "Certain"⟩) ∧
    respConfidence (marketPulseHandler offVocabEnv [] "AAPL" 0).1 =
      some (Analysis.confidence ⟨"Sideways", "Choppy tape.", "Certain"⟩) :=
  ⟨by decide,
    pulse_passthrough offVocabEnv [] "AAPL" 0 samplePoint [] (.arr [])
      ⟨"Sideways", "Choppy tape.", "Certain"⟩ (by decide) (by decide)
      rfl rfl rfl⟩

/-- Six distinct news items, one more than the documented cap. -/
def sixNews : List NewsItem :=
  [⟨"t1", "b1", "u1"⟩, ⟨"t2", "b2", "u2"⟩, ⟨"t3", "b3", "u3"⟩,
    ⟨"t4", "b4", "u4"⟩, ⟨"t5", "b5", "u5"⟩, ⟨"t6", "b6", "u6"⟩]

/-- An environment whose news provider returns six items. -/
def sixNewsEnv : Env :=
  ⟨some "fmp", some "gem", .ok (some [samplePoint]), .ok (.arr sixNews),
    .ok [some sampleAnalysis], 0⟩

/-- Counterexample to C9: if the news provider returns six items, the
successful response's news field contains six items — the code performs
no truncation (the cap is only requested from the provider through the
limit=5 query parameter). -/
theorem news_cap_counterexample :
    respNewsCount (marketPulseHandler sixNewsEnv [] "AAPL" 0).1 = some 6 ∧
    ¬ (6 ≤ 5) :=
  ⟨rfl, by decide⟩

/-- C9 (amended): the news field of a successful cache-miss request
equals, verbatim and untruncated, the array the news provider returned;
its length is the provider's, so it is capped at 5 exactly when the
provider honors the requested limit. -/
theorem news_verbatim (env : Env) (cache : Cache) (raw : String)
    (now : Nat) (p : HistPoint) (rest : List HistPoint) (l : List NewsItem)
    (a : Analysis)
    (hv : validTicker (upperStr raw) = true)
    (hmiss : isCacheHit cache (upperStr raw) now = false)
    (hh : getHistoricalData env.fmpKey (upperStr raw) env.hist = .ok (p :: rest))
    (hn : getNewsData env.fmpKey env.news = .ok (.arr l))
    (hg : getGeminiAnalysis env.geminiKey env.gemini = .ok a) :
    respNews (marketPulseHandler env cache raw now).1 = some (.arr l) ∧
    respNewsCount (marketPulseHandler env cache raw now).1 =
      some l.length := by
  rw [handler_valid_miss env cache raw now hv hmiss,
    fetchAndAssemble_success env cache (upperStr raw) now p rest (.arr l) a
      hh hn hg]
  exact ⟨rfl, rfl⟩

/-- Witness for the amended C9 at a concrete input: six provider items
yield a six-item news field. -/
theorem news_verbatim_witness :
    validTicker (upperStr "AAPL") = true ∧
    respNews (marketPulseHandler sixNewsEnv [] "AAPL" 0).1 =
      some (.arr sixNews) ∧
    respNewsCount (marketPulseHandler sixNewsEnv [] "AAPL" 0).1 =
      some sixNews.length :=
  ⟨by decide,
    news_verbatim sixNewsEnv [] "AAPL" 0 samplePoint [] sixNews
      sampleAnalysis (by decide) (by decide) rfl rfl rfl⟩

/-- An environment without the FMP API key configured. -/
def noKeyEnv : Env :=
  ⟨none, some "gem", .ok (some [samplePoint]), .ok (.arr []),
    .ok [some sampleAnalysis], 0⟩

/-- Counterexample to C10: with the key configured, a truthy malformed
2xx news payload is a news-step failure the client does not resolve to
the empty sequence — `response.data || []` resolves it to the payload
verbatim. So the missing key is not the only failure mode that escapes
absorption into an empty news value. -/
theorem news_key_counterexample :
    getNewsData (some "fmp") (.ok (.other "limit reached object")) =
      .ok (.other "limit reached object") ∧
    NewsVal.other "limit reached object" ≠ NewsVal.arr [] :=
  ⟨rfl, by decide⟩

/-- C10 (amended): without the FMP key the news client rejects with
"FMP API key not configured." whatever the network outcome — its only
rejecting path — and the whole request then fails with a 500 carrying
that message (the historical client, checking the same key, rejects
identically first), with the cache unchanged. With a key, the client
resolves to [] exactly when the HTTP call throws or the payload is
falsy; an array resolves verbatim, and a truthy malformed payload also
resolves verbatim — not to []. -/
theorem fmp_key_only_rejection (k : String) :
    (∀ o, getNewsData none o = .error "FMP API key not configured.") ∧
    (∀ m, getNewsData (some k) (.netErr m) = .ok (.arr [])) ∧
    (getNewsData (some k) (.ok .nullish) = .ok (.arr [])) ∧
    (∀ l, getNewsData (some k) (.ok (.arr l)) = .ok (.arr l)) ∧
    (∀ v, getNewsData (some k) (.ok (.other v)) = .ok (.other v)) ∧
    (∀ env cache raw now, env.fmpKey = none →
      validTicker (upperStr raw) = true →
      isCacheHit cache (upperStr raw) now = false →
      marketPulseHandler env cache raw now =
        (.serverError "FMP API key not configured.", cache,
          ⟨true, true, false⟩)) := by
  refine ⟨fun o => rfl, fun m => rfl, rfl, fun l => rfl, fun v => rfl,
    fun env cache raw now hk hv hm => ?_⟩
  have hh : getHistoricalData env.fmpKey (upperStr raw) env.hist =
      .error "FMP API key not configured." := by
    rw [hk]
    rfl
  rw [handler_valid_miss env cache raw now hv hm]
  unfold fetchAndAssemble promiseAll2
  rw [hh]

/-- Witness for the amended C10 at concrete inputs: with no FMP key the
news client rejects and the request answers 500 with the key error;
with a key a thrown news call resolves to the empty array and a truthy
malformed payload resolves verbatim. -/
theorem fmp_key_only_rejection_witness :
    getNewsData none (.ok (.arr [])) =
      .error "FMP API key not configured." ∧
    getNewsData (some "fmp") (.netErr "news service down") =
      .ok (.arr []) ∧
    getNewsData (some "fmp") (.ok (.other "oops")) = .ok (.other "oops") ∧
    marketPulseHandler noKeyEnv [] "AAPL" 0 =
      (.serverError "FMP API key not configured.", [],
        ⟨true, true, false⟩) :=
  ⟨(fmp_key_only_rejection "fmp").1 (.ok (.arr [])),
    (fmp_key_only_rejection "fmp").2.1 "news service down",
    (fmp_key_only_rejection "fmp").2.2.2.2.1 "oops",
    (fmp_key_only_rejection "fmp").2.2.2.2.2 noKeyEnv [] "AAPL" 0 rfl
      (by decide) (by decide)⟩
